import Mathlib

/-!
Verification of the Heston stochastic-volatility process
(`ql/processes/hestonprocess.cpp`).

The process state is a pair `(price, variance)` of real scalars
(index 0 = asset level, index 1 = variance).  The five model parameters
`v0, kappa, theta, sigma, rho` are real scalars; the two yield curves are
modelled by records supplying a reference date, a day-count year-fraction
function and an instantaneous continuously-compounded forward rate.
Floating-point arithmetic of the source is modelled by exact real
arithmetic.
-/

/-- Term structure handle: reference date, day counter (as a year-fraction
function between two dates) and the continuously-compounded forward rate
`forwardRate(t1, t2, Continuous)`. -/
structure YieldTermStructure (Date : Type) where
  referenceDate : Date
  yearFraction : Date → Date → ℝ
  forwardRate : ℝ → ℝ → ℝ

/-- The Heston process: two curve handles, the spot quote and the five
scalar parameter quotes, all read live (a shallow state snapshot). -/
structure HestonProcess (Date : Type) where
  riskFreeRate : YieldTermStructure Date
  dividendYield : YieldTermStructure Date
  s0 : ℝ
  v0 : ℝ
  kappa : ℝ
  theta : ℝ
  sigma : ℝ
  rho : ℝ

/-- `2x2` real matrix as produced by `HestonProcess::diffusion`
(`tmp[i][j]` in the source becomes field `mij`). -/
structure Mat2 where
  m00 : ℝ
  m01 : ℝ
  m10 : ℝ
  m11 : ℝ

/-- The floored volatility `(x[1] > 0.0) ? std::sqrt(x[1]) : 0.0`,
computed identically at the top of `drift` (as `vol`) and of
`diffusion` (as `sigma1`). -/
noncomputable def volFloor (x1 : ℝ) : ℝ :=
  if x1 > 0 then Real.sqrt x1 else 0

/-- `HestonProcess::size`. -/
def HestonProcess.size {Date : Type} (_ : HestonProcess Date) : ℕ := 2

/-- `HestonProcess::initialValues`: `tmp[0] = s0_->value(); tmp[1] = v0_->value()`. -/
def HestonProcess.initialValues {Date : Type} (p : HestonProcess Date) : ℝ × ℝ :=
  (p.s0, p.v0)

/-- `HestonProcess::drift`. -/
noncomputable def HestonProcess.drift {Date : Type} (p : HestonProcess Date)
    (t : ℝ) (x : ℝ × ℝ) : ℝ × ℝ :=
  let vol := volFloor x.2
  (p.riskFreeRate.forwardRate t t - p.dividendYield.forwardRate t t
     - 0.5 * vol * vol,
   p.kappa * (p.theta - vol * vol))

/-- `HestonProcess::diffusion` (the time argument is unnamed and unused in
the source). -/
noncomputable def HestonProcess.diffusion {Date : Type} (p : HestonProcess Date)
    (_t : ℝ) (x : ℝ × ℝ) : Mat2 :=
  let rho := p.rho
  let sigma1 := volFloor x.2
  let sigma2 := p.sigma * sigma1
  { m00 := sigma1
    m01 := 0
    m10 := rho * sigma2
    m11 := Real.sqrt (1 - rho * rho) * sigma2 }

/-- `HestonProcess::apply`: `tmp[0] = x0[0]*std::exp(dx[0]); tmp[1] = x0[1] + dx[1]`. -/
noncomputable def HestonProcess.apply (x0 dx : ℝ × ℝ) : ℝ × ℝ :=
  (x0.1 * Real.exp dx.1, x0.2 + dx.2)

/-- `HestonProcess::time`: year fraction from the risk-free curve's
reference date to `d`, by the risk-free curve's own day counter. -/
def HestonProcess.time {Date : Type} (p : HestonProcess Date) (d : Date) : ℝ :=
  p.riskFreeRate.yearFraction p.riskFreeRate.referenceDate d

/-- The floored volatility vanishes on nonpositive variance. -/
theorem volFloor_of_nonpos {x1 : ℝ} (h : x1 ≤ 0) : volFloor x1 = 0 :=
  if_neg (not_lt.mpr h)

/-- A concrete flat curve used to instantiate witnesses. -/
noncomputable def flatCurve (r : ℝ) : YieldTermStructure Unit :=
  { referenceDate := ()
    yearFraction := fun _ _ => 0
    forwardRate := fun _ _ => r }

/-- A concrete process (spec section 8 end-to-end example data) used to
instantiate witnesses. -/
noncomputable def procEx : HestonProcess Unit :=
  { riskFreeRate := flatCurve 0.02
    dividendYield := flatCurve 0
    s0 := 100
    v0 := 0.04
    kappa := 2
    theta := 0.04
    sigma := 0.3
    rho := -0.6 }

/-- Claim C1: for every time and every state with nonpositive variance
component, the variance drift equals `kappa*theta` and the first row of the
diffusion matrix is zero — the variance floor acts inside `drift` and
`diffusion`, not in `apply`. -/
theorem drift_diffusion_variance_floor {Date : Type} (p : HestonProcess Date)
    (t : ℝ) (x : ℝ × ℝ) (h : x.2 ≤ 0) :
    (p.drift t x).2 = p.kappa * p.theta ∧
    (p.diffusion t x).m00 = 0 ∧ (p.diffusion t x).m01 = 0 := by
  simp [HestonProcess.drift, HestonProcess.diffusion, volFloor_of_nonpos h]

theorem drift_diffusion_variance_floor_witness :
    (((5, -1) : ℝ × ℝ).2 ≤ 0) ∧
    ((procEx.drift 0 (5, -1)).2 = procEx.kappa * procEx.theta ∧
     (procEx.diffusion 0 (5, -1)).m00 = 0 ∧ (procEx.diffusion 0 (5, -1)).m01 = 0) :=
  ⟨by norm_num, drift_diffusion_variance_floor procEx 0 (5, -1) (by norm_num)⟩

/-- Claim C2, counterexample: at spot `p = 0` the updated price component
equals `0 * exp 0 = 0`, which is not strictly positive, so the claim's
universally quantified positivity statement fails without `0 < p`. -/
theorem apply_positive_counterexample :
    (HestonProcess.apply (0, 1) (0, 0)).1 = 0 * Real.exp 0 ∧
    ¬ (0 < (HestonProcess.apply (0, 1) (0, 0)).1) := by
  constructor
  · rfl
  · simp [HestonProcess.apply]

/-- Claim C2 (amended): for every state `(p, v)` and increment `(d0, d1)`,
`apply` returns `(p * exp d0, v + d1)`; and whenever the starting price `p`
is strictly positive, the updated price component stays strictly positive
for any `d0`. -/
theorem apply_formula_and_positive (p v d0 d1 : ℝ) :
    HestonProcess.apply (p, v) (d0, d1) = (p * Real.exp d0, v + d1) ∧
    (0 < p → 0 < (HestonProcess.apply (p, v) (d0, 0)).1) :=
  ⟨rfl, fun hp => mul_pos hp (Real.exp_pos d0)⟩

theorem apply_formula_and_positive_witness :
    ((0:ℝ) < 1) ∧
    (HestonProcess.apply (1, 2) (3, 4) = (1 * Real.exp 3, 2 + 4) ∧
     0 < (HestonProcess.apply (1, 2) (3, 0)).1) :=
  ⟨by norm_num, (apply_formula_and_positive 1 2 3 4).1,
   (apply_formula_and_positive 1 2 3 4).2 (by norm_num)⟩

/-- Claim C3: for every time and state, the diffusion matrix has entries
`M00 = sigma1`, `M01 = 0`, `M10 = rho*sigma*sigma1`,
`M11 = sqrt(1-rho^2)*sigma*sigma1`, with `sigma1` the floored volatility. -/
theorem diffusion_components {Date : Type} (p : HestonProcess Date)
    (t : ℝ) (x : ℝ × ℝ) :
    (p.diffusion t x).m00 = volFloor x.2 ∧
    (p.diffusion t x).m01 = 0 ∧
    (p.diffusion t x).m10 = p.rho * p.sigma * volFloor x.2 ∧
    (p.diffusion t x).m11 = Real.sqrt (1 - p.rho ^ 2) * p.sigma * volFloor x.2 := by
  refine ⟨rfl, rfl, by simp only [HestonProcess.diffusion]; ring, ?_⟩
  simp only [HestonProcess.diffusion]
  rw [sq]
  ring

/-- Claim C4: for every time and state, the price drift equals the
instantaneous risk-free forward rate minus the instantaneous dividend
forward rate minus `0.5*vol^2`, and the variance drift equals
`kappa*(theta - vol^2)`, with `vol` the floored volatility. -/
theorem drift_components {Date : Type} (p : HestonProcess Date)
    (t : ℝ) (x : ℝ × ℝ) :
    p.drift t x =
      (p.riskFreeRate.forwardRate t t - p.dividendYield.forwardRate t t
         - 0.5 * volFloor x.2 ^ 2,
       p.kappa * (p.theta - volFloor x.2 ^ 2)) := by
  simp only [HestonProcess.drift, Prod.mk.injEq]
  constructor <;> ring

/-- Claim C5: for every state and any correlation in `[-1, 1]`, the second
row of the diffusion matrix satisfies
`M10^2 + M11^2 = (sigma*sigma1)^2` over exact real arithmetic. -/
theorem diffusion_row_norm {Date : Type} (p : HestonProcess Date)
    (t : ℝ) (x : ℝ × ℝ) (h1 : -1 ≤ p.rho) (h2 : p.rho ≤ 1) :
    (p.diffusion t x).m10 ^ 2 + (p.diffusion t x).m11 ^ 2
      = (p.sigma * volFloor x.2) ^ 2 := by
  have hr : 0 ≤ 1 - p.rho * p.rho := by nlinarith
  have hs : Real.sqrt (1 - p.rho * p.rho) ^ 2 = 1 - p.rho * p.rho :=
    Real.sq_sqrt hr
  simp only [HestonProcess.diffusion]
  linear_combination (p.sigma * volFloor x.2) ^ 2 * hs

theorem diffusion_row_norm_witness :
    (-1 ≤ procEx.rho) ∧ (procEx.rho ≤ 1) ∧
    ((procEx.diffusion 0 (100, 0.04)).m10 ^ 2
       + (procEx.diffusion 0 (100, 0.04)).m11 ^ 2
      = (procEx.sigma * volFloor (((100, 0.04) : ℝ × ℝ)).2) ^ 2) :=
  ⟨by norm_num [procEx], by norm_num [procEx],
   diffusion_row_norm procEx 0 (100, 0.04) (by norm_num [procEx])
     (by norm_num [procEx])⟩

/-- Claim C6: `initialValues` performs no caching — it returns the pair of
the live spot and `v0` values, so after `v0` is mutated to `v1` a
subsequent call returns `(spot, v1)`. -/
theorem initialValues_live {Date : Type} (p : HestonProcess Date) (v1 : ℝ) :
    p.initialValues = (p.s0, p.v0) ∧
    ({ p with v0 := v1 } : HestonProcess Date).initialValues = (p.s0, v1) :=
  ⟨rfl, rfl⟩

/-- Claim C7: the zero increment is a no-op for `apply`. -/
theorem apply_zero_increment (x0 : ℝ × ℝ) :
    HestonProcess.apply x0 (0, 0) = x0 := by
  simp [HestonProcess.apply]

/-- Claim C8: `time d` is the year fraction from the risk-free curve's
reference date to `d` under the risk-free curve's own day counter, and the
dividend curve plays no role in it. -/
theorem time_riskfree_daycount {Date : Type} (p : HestonProcess Date)
    (q : YieldTermStructure Date) (d : Date) :
    p.time d = p.riskFreeRate.yearFraction p.riskFreeRate.referenceDate d ∧
    ({ p with dividendYield := q } : HestonProcess Date).time d = p.time d :=
  ⟨rfl, rfl⟩

/-- Claim C9: with nonpositive variance the whole diffusion matrix
vanishes — both rows, since `sigma2 = sigma * sigma1 = 0` as well. -/
theorem diffusion_zero_of_nonpos_variance {Date : Type} (p : HestonProcess Date)
    (t : ℝ) (x : ℝ × ℝ) (h : x.2 ≤ 0) :
    p.diffusion t x = { m00 := 0, m01 := 0, m10 := 0, m11 := 0 } := by
  simp [HestonProcess.diffusion, volFloor_of_nonpos h]

theorem diffusion_zero_of_nonpos_variance_witness :
    (((5, -1) : ℝ × ℝ).2 ≤ 0) ∧
    procEx.diffusion 0 (5, -1) = { m00 := 0, m01 := 0, m10 := 0, m11 := 0 } :=
  ⟨by norm_num, diffusion_zero_of_nonpos_variance procEx 0 (5, -1) (by norm_num)⟩

/-- Claim C10: `drift` and `diffusion` never read the price component of the
state — states agreeing in the variance component yield equal results — and
`diffusion` ignores its time argument entirely. -/
theorem drift_diffusion_ignore_price_and_time {Date : Type}
    (p : HestonProcess Date) (t t' : ℝ) (x y : ℝ × ℝ) (h : x.2 = y.2) :
    p.drift t x = p.drift t y ∧ p.diffusion t x = p.diffusion t' y := by
  constructor <;> simp [HestonProcess.drift, HestonProcess.diffusion, h]

theorem drift_diffusion_ignore_price_and_time_witness :
    (((1, 3) : ℝ × ℝ).2 = ((2, 3) : ℝ × ℝ).2) ∧
    (procEx.drift 0 (1, 3) = procEx.drift 0 (2, 3) ∧
     procEx.diffusion 0 (1, 3) = procEx.diffusion 7 (2, 3)) :=
  ⟨by norm_num,
   drift_diffusion_ignore_price_and_time procEx 0 7 (1, 3) (2, 3) (by norm_num)⟩
